import Mathlib

/-
  Verification of the client-side controller in src/static/app.js of the
  Lecture Voice-to-Notes Generator.

  The JavaScript module state and its event handlers are shallowly embedded:
  module variables become fields of an explicit state record, each handler
  becomes a pure step function, and the asynchronous generate / download
  handlers become functions from their network outcome to the resulting
  observable UI state.  JS falsy checks on strings and arrays are modelled
  with Option, and JS string values with String / List Char.
-/

-- ── Basic data ──────────────────────────────────────────────────────────────

/-- Active input tab, mirroring the module variable activeMode. -/
inductive Mode
  | upload
  | record
deriving DecidableEq, BEq

/-- Lifecycle of the MediaRecorder object: mediaRecorder is null before any
start, in state recording after mediaRecorder.start, and inactive once
stopped.  stopRecording tests mediaRecorder and mediaRecorder.state. -/
inductive MRState
  | noRecorder
  | recording
  | inactive
deriving DecidableEq, BEq

/-- A browser File value as far as handleFileSelect reads it: name, declared
media type (file.type) and byte size. -/
structure JSFile where
  name : String
  type : String
  size : Nat
deriving DecidableEq

/-- One quiz entry of the /transcribe payload; question or answer may be
absent (escapeHtml receives undefined then). -/
structure QuizItem where
  question : Option String
  answer : Option String
deriving DecidableEq

/-- One flashcard entry of the /transcribe payload. -/
structure CardItem where
  front : Option String
  back : Option String
deriving DecidableEq

/-- JSON body of a /transcribe response.  Every field except success may be
missing; a missing field reads as undefined in the handler. -/
structure TranscribeBody where
  success : Bool
  error : Option String
  transcript : Option String
  summary : Option String
  bullets : Option (List String)
  quiz : Option (List QuizItem)
  flashcards : Option (List CardItem)
deriving DecidableEq

/-- JS expression a || b for a string-valued a: the fallback is used when a
is undefined or the empty string (both falsy). -/
def jsOr (o : Option String) (fb : String) : String :=
  match o with
  | none => fb
  | some s => if s = "" then fb else s

/-- JS expression a || [] for an array-valued a. -/
def jsArr {α : Type} (o : Option (List α)) : List α :=
  match o with
  | none => []
  | some l => l

-- ── escapeHtml (app.js lines 409-417) ───────────────────────────────────────

/-- Semantics of JS String.replace with a /g single-character pattern:
every occurrence of the character c is replaced by the string r. -/
def replaceAllC : List Char → Char → List Char → List Char
  | [], _, _ => []
  | x :: xs, c, r => (if x = c then r else [x]) ++ replaceAllC xs c r

/-- The double-quote character, written by code point to keep it apart from
string delimiters. -/
def quoteChar : Char := Char.ofNat 34

/-- The single-quote character, by code point. -/
def aposChar : Char := Char.ofNat 39

/-- Entity text amp of escapeHtml. -/
def ampEntity : List Char := ['&', 'a', 'm', 'p', ';']

/-- Entity text lt of escapeHtml. -/
def ltEntity : List Char := ['&', 'l', 't', ';']

/-- Entity text gt of escapeHtml. -/
def gtEntity : List Char := ['&', 'g', 't', ';']

/-- Entity text quot of escapeHtml. -/
def quotEntity : List Char := ['&', 'q', 'u', 'o', 't', ';']

/-- Entity text for the single quote in escapeHtml. -/
def aposEntity : List Char := ['&', '#', '0', '3', '9', ';']

/-- The five chained .replace calls of escapeHtml, in source order:
ampersand first, then angle brackets, then the two quotes. -/
def escapeCore (l : List Char) : List Char :=
  replaceAllC
    (replaceAllC
      (replaceAllC
        (replaceAllC
          (replaceAllC l '&' ampEntity)
          '<' ltEntity)
        '>' gtEntity)
      quoteChar quotEntity)
    aposChar aposEntity

/-- Per-character view of escapeCore, used to reason by induction. -/
def escChar (x : Char) : List Char :=
  if x = '&' then ampEntity
  else if x = '<' then ltEntity
  else if x = '>' then gtEntity
  else if x = quoteChar then quotEntity
  else if x = aposChar then aposEntity
  else [x]

/-- escapeHtml as called on an optional field: undefined and the empty
string are falsy, so escapeHtml returns the empty string for them. -/
def escapeHtmlJS (o : Option String) : String :=
  match o with
  | none => ""
  | some s => if s = "" then "" else String.mk (escapeCore s.data)

/-- A character that must never appear raw in escaped output: the angle
brackets and both quotes. -/
def isSpecialOut (c : Char) : Bool :=
  c == '<' || c == '>' || c == quoteChar || c == aposChar

/-- After an ampersand, the remaining text must begin with the body of one
of the five entities emitted by escapeHtml. -/
def entityHead (r : List Char) : Bool :=
  ['a', 'm', 'p', ';'].isPrefixOf r ||
  ['l', 't', ';'].isPrefixOf r ||
  ['g', 't', ';'].isPrefixOf r ||
  ['q', 'u', 'o', 't', ';'].isPrefixOf r ||
  ['#', '0', '3', '9', ';'].isPrefixOf r

/-- Text is well escaped when it holds no raw angle bracket or quote and
every ampersand starts one of the five entity spellings. -/
def wellEscaped : List Char → Bool
  | [] => true
  | c :: r =>
    if isSpecialOut c then false
    else if c == '&' then entityHead r && wellEscaped r
    else wellEscaped r

-- ── displayResults (app.js lines 241-292) ───────────────────────────────────

/-- The four result regions produced by displayResults: transcript and
summary text, bullet list items, quiz question/answer pairs and flashcard
front/back pairs as inserted into the page. -/
structure RenderedViews where
  transcript : String
  summary : String
  bullets : List String
  quiz : List (String × String)
  cards : List (String × String)
deriving DecidableEq

/-- displayResults: transcript and summary fall back to explicit
placeholders via ||; bullets default to the empty array and are inserted
as textContent (verbatim); quiz and flashcard texts pass through
escapeHtml before insertion as innerHTML. -/
def renderViews (b : TranscribeBody) : RenderedViews :=
  { transcript := jsOr b.transcript "Transcript not available.",
    summary := jsOr b.summary "Summary not available.",
    bullets := jsArr b.bullets,
    quiz := (jsArr b.quiz).map (fun it => (escapeHtmlJS it.question, escapeHtmlJS it.answer)),
    cards := (jsArr b.flashcards).map (fun c => (escapeHtmlJS c.front, escapeHtmlJS c.back)) }

-- ── Upload validation (app.js lines 82-94) ──────────────────────────────────

/-- The allowed media-type list of handleFileSelect. -/
def allowedTypes : List String :=
  ["audio/mpeg", "audio/wav", "audio/webm", "audio/ogg",
   "audio/mp4", "video/mp4", "audio/x-m4a"]

/-- The extensions admitted by the case-insensitive fallback regex of
handleFileSelect, dots included. -/
def allowedExts : List String :=
  [".mp3", ".wav", ".webm", ".ogg", ".m4a", ".mp4"]

/-- Semantics of name.match of the anchored, case-insensitive extension
regex: the lower-cased character sequence of the name ends with one of the
allowed extensions. -/
def extFallback (name : String) : Bool :=
  allowedExts.any (fun e => e.data.isSuffixOf (name.data.map Char.toLower))

/-- The acceptance test of handleFileSelect: declared type in the allow
list, or the extension fallback matches. -/
def acceptsFile (f : JSFile) : Bool :=
  allowedTypes.contains f.type || extFallback f.name

/-- Toast text shown by handleFileSelect on rejection. -/
def unsupportedMsg : String :=
  "Please upload an audio file (MP3, WAV, WebM, OGG, M4A)"

/-- Toast text shown by startRecording when getUserMedia rejects. -/
def micDeniedMsg : String :=
  "Microphone access denied. Please allow microphone permission in your browser."

/-- Status line while recording. -/
def recStatusRecording : String := "🔴 Recording in progress..."

/-- Status line written unconditionally by stopRecording. -/
def recStatusSaved : String := "✅ Recording saved! Preview below."

/-- padStart of two with zero, as used for the timer. -/
def pad2 (n : Nat) : String :=
  if n < 10 then "0" ++ toString n else toString n

/-- Timer text produced each tick: minutes and seconds, two digits each. -/
def fmtMMSS (sec : Nat) : String :=
  pad2 (sec / 60) ++ ":" ++ pad2 (sec % 60)

/-- formatBytes of app.js; toFixed of one digit is modelled as rounding the
exact ratio to the nearest tenth. -/
def oneDecimal (tenths : Nat) : String :=
  toString (tenths / 10) ++ "." ++ toString (tenths % 10)

/-- Human-readable size string of the selected file. -/
def formatBytes (bytes : Nat) : String :=
  if bytes < 1024 then toString bytes ++ " B"
  else if bytes < 1024 * 1024 then oneDecimal ((bytes * 10 + 512) / 1024) ++ " KB"
  else oneDecimal ((bytes * 10 + 524288) / 1048576) ++ " MB"

/-- Text placed in the file preview by handleFileSelect. -/
def fileDisplay (f : JSFile) : String :=
  "📎 " ++ f.name ++ " (" ++ formatBytes f.size ++ ")"

-- ── Application state and event handlers ────────────────────────────────────

/-- The module-level variables of app.js together with the pieces of DOM
state the handlers read or write.  notesData starts as the empty object,
modelled as none. -/
structure AppState where
  audioChunks : List Nat
  recordingTimerActive : Bool
  recordingSeconds : Nat
  uploadedFile : Option JSFile
  recordedBlob : Option (List Nat)
  activeMode : Mode
  notesData : Option TranscribeBody
  generateBtnDisabled : Bool
  timerText : String
  recordBtnHidden : Bool
  stopBtnHidden : Bool
  micRecording : Bool
  recStatusText : String
  filePreviewHidden : Bool
  fileNameText : String
  playbackHidden : Bool
  lastError : Option String
  mediaRecorderState : MRState
deriving DecidableEq

/-- State on page load: empty selections, empty notes object, idle record
controls (markup defaults: record visible, stop hidden, generate disabled). -/
def initState : AppState :=
  { audioChunks := [],
    recordingTimerActive := false,
    recordingSeconds := 0,
    uploadedFile := none,
    recordedBlob := none,
    activeMode := Mode.upload,
    notesData := none,
    generateBtnDisabled := true,
    timerText := "00:00",
    recordBtnHidden := false,
    stopBtnHidden := true,
    micRecording := false,
    recStatusText := "",
    filePreviewHidden := true,
    fileNameText := "",
    playbackHidden := true,
    lastError := none,
    mediaRecorderState := MRState.noRecorder }

/-- Generate readiness as computed inside updateGenerateBtn: active mode is
upload with a file, or record with a recorded blob. -/
def gate (s : AppState) : Bool :=
  (s.activeMode == Mode.upload && s.uploadedFile.isSome) ||
  (s.activeMode == Mode.record && s.recordedBlob.isSome)

/-- updateGenerateBtn (app.js lines 173-177): generateBtn.disabled is set
to the negation of readiness. -/
def updateGenerateBtn (s : AppState) : AppState :=
  { s with generateBtnDisabled := !(gate s) }

/-- User-driven events of the recording/upload surface.  recordStart
carries whether getUserMedia resolves; tick merges the one-second timer
callback with the one-second dataavailable callback and carries the size
of the delivered chunk. -/
inductive AppAction
  | setMode (m : Mode)
  | selectFile (f : JSFile)
  | removeFile
  | recordStart (granted : Bool)
  | recordStop
  | tick (chunkSize : Nat)

/-- One event-handler execution.  Each branch follows the corresponding
handler in app.js line by line:
tab click (49-58), handleFileSelect (82-94), remove-file click (96-101),
startRecording (107-157), stopRecording (159-170) together with the
MediaRecorder onstop callback (127-135), and the recording interval
callback (146-151) with ondataavailable (123-125). -/
def step (a : AppAction) (s : AppState) : AppState :=
  match a with
  | AppAction.setMode m =>
      updateGenerateBtn { s with activeMode := m }
  | AppAction.selectFile f =>
      if acceptsFile f then
        updateGenerateBtn
          { s with uploadedFile := some f,
                   fileNameText := fileDisplay f,
                   filePreviewHidden := false }
      else
        { s with lastError := some unsupportedMsg }
  | AppAction.removeFile =>
      updateGenerateBtn { s with uploadedFile := none, filePreviewHidden := true }
  | AppAction.recordStart granted =>
      if granted then
        { s with audioChunks := [],
                 recordedBlob := none,
                 recordingSeconds := 0,
                 timerText := "00:00",
                 playbackHidden := true,
                 mediaRecorderState := MRState.recording,
                 recordBtnHidden := true,
                 stopBtnHidden := false,
                 micRecording := true,
                 recStatusText := recStatusRecording,
                 recordingTimerActive := true }
      else
        { s with lastError := some micDeniedMsg }
  | AppAction.recordStop =>
      let s1 := { s with recordingTimerActive := false,
                         recordBtnHidden := false,
                         stopBtnHidden := true,
                         micRecording := false,
                         recStatusText := recStatusSaved }
      if s.mediaRecorderState == MRState.recording then
        updateGenerateBtn
          { s1 with recordedBlob := some s.audioChunks,
                    playbackHidden := false,
                    mediaRecorderState := MRState.inactive }
      else s1
  | AppAction.tick chunkSize =>
      let s1 :=
        if s.recordingTimerActive then
          { s with recordingSeconds := s.recordingSeconds + 1,
                   timerText := fmtMMSS (s.recordingSeconds + 1) }
        else s
      if s.mediaRecorderState == MRState.recording && chunkSize > 0 then
        { s1 with audioChunks := s1.audioChunks ++ [chunkSize] }
      else s1

/-- States the page can be in after any sequence of events. -/
inductive Reachable : AppState → Prop
  | base : Reachable initState
  | tail {s : AppState} (h : Reachable s) (a : AppAction) : Reachable (step a s)

-- ── Generate pipeline (app.js lines 180-238, 344-366) ───────────────────────

/-- Ordered pipeline stages of the processing overlay. -/
inductive Stage
  | transcribe
  | summarize
  | quiz
  | flash
deriving DecidableEq

/-- Position of a stage in the steps array. -/
def stageIdx : Stage → Nat
  | Stage.transcribe => 0
  | Stage.summarize => 1
  | Stage.quiz => 2
  | Stage.flash => 3

/-- CSS class of a step element: done, active, or neither (pending). -/
inductive StageClass
  | pending
  | active
  | done
deriving DecidableEq

/-- Class given to step element i by setStep with current index n:
done before the index, active at it, pending after. -/
def clsAt (i n : Nat) : StageClass :=
  if i < n then StageClass.done
  else if i = n then StageClass.active
  else StageClass.pending

/-- Classes of the four step elements after setStep on the given index. -/
def classesOf (n : Nat) : List StageClass :=
  [clsAt 0 n, clsAt 1 n, clsAt 2 n, clsAt 3 n]

/-- Classes after showProcessingOverlay clears every step element. -/
def allPendingClasses : List StageClass :=
  [StageClass.pending, StageClass.pending, StageClass.pending, StageClass.pending]

/-- The /transcribe HTTP response as the handler sees it: ok flag, status
code, and the parsed JSON body (none when response.json() rejects). -/
structure HttpResp where
  ok : Bool
  status : Nat
  jsonBody : Option TranscribeBody
deriving DecidableEq

/-- One click of the generate button: whether the active mode has a
matching selection, and the response of the single fetch. -/
structure GenInput where
  selectionPresent : Bool
  resp : HttpResp
deriving DecidableEq

/-- Observable outcome of one generate-button handler run: the ordered
setStep calls it made, the final overlay visibility and loading flag, the
toast message, the stored notesData update, and the rendered results. -/
structure GenResult where
  stepTrace : List Stage
  overlayVisible : Bool
  generateDisabled : Bool
  notice : Option String
  stored : Option TranscribeBody
  succeeded : Bool
  rendered : Option RenderedViews
deriving DecidableEq

/-- Catch branch of the generate handler (lines 232-237): overlay hidden,
loading cleared, message toasted; notesData was not written. -/
def mkFail (tr : List Stage) (msg : String) : GenResult :=
  { stepTrace := tr,
    overlayVisible := false,
    generateDisabled := false,
    notice := some msg,
    stored := none,
    succeeded := false,
    rendered := none }

/-- Fallback message when a failing payload carries no usable error field. -/
def unknownErrMsg : String := "Unknown error"

/-- Stand-in for the TypeError message raised by reading ok on an undefined
response when neither branch sent a request. -/
def undefinedRespMsg : String := "Cannot read properties of undefined"

/-- Stand-in for the message of a rejected response.json() call. -/
def jsonParseFailMsg : String := "Unexpected end of JSON input"

/-- The generate click handler.  It shows the overlay with all steps reset,
sends at most one request, walks setStep transcribe / summarize / quiz /
flash in order, and on any thrown error hides the overlay, clears the
loading state and toasts the message.  On a non-ok response the body error
field is used with an HTTP-status fallback; on an ok response with a false
success flag the body error field is used with the unknown-error fallback. -/
def runGenerate (inp : GenInput) : GenResult :=
  if !inp.selectionPresent then
    mkFail [] undefinedRespMsg
  else if !inp.resp.ok then
    mkFail [Stage.transcribe]
      (match inp.resp.jsonBody with
       | none => jsonParseFailMsg
       | some b => jsOr b.error ("HTTP " ++ toString inp.resp.status))
  else
    match inp.resp.jsonBody with
    | none => mkFail [Stage.transcribe, Stage.summarize] jsonParseFailMsg
    | some b =>
      if !b.success then
        mkFail [Stage.transcribe, Stage.summarize] (jsOr b.error unknownErrMsg)
      else
        { stepTrace := [Stage.transcribe, Stage.summarize, Stage.quiz, Stage.flash],
          overlayVisible := false,
          generateDisabled := false,
          notice := none,
          stored := some b,
          succeeded := true,
          rendered := some (renderViews b) }

/-- Evolution of the four step-element classes during one handler run:
reset by showProcessingOverlay, then one entry per setStep call. -/
def classTrace (r : GenResult) : List (List StageClass) :=
  allPendingClasses :: r.stepTrace.map (fun st => classesOf (stageIdx st))

/-- Step-element classes left behind when the handler finishes. -/
def finalClasses (r : GenResult) : List StageClass :=
  (r.stepTrace.map (fun st => classesOf (stageIdx st))).getLastD allPendingClasses

/-- A stage is visually active only when the overlay is shown and its
element carries the active class. -/
def anyVisuallyActive (r : GenResult) : Bool :=
  r.overlayVisible && (finalClasses r).contains StageClass.active

/-- Checks that a class list is a block of done, then at most one active,
then only pending. -/
def pendingOnly : List StageClass → Bool
  | [] => true
  | StageClass.pending :: t => pendingOnly t
  | _ => false

/-- Shape check for the overlay invariant: done before the active stage,
pending after it, never two active stages. -/
def dapShape : List StageClass → Bool
  | [] => true
  | StageClass.done :: t => dapShape t
  | StageClass.active :: t => pendingOnly t
  | StageClass.pending :: t => pendingOnly t

/-- The stage indices of a setStep trace never decrease. -/
def nonDecreasing : List Stage → Bool
  | [] => true
  | [_] => true
  | a :: b :: t => decide (stageIdx a ≤ stageIdx b) && nonDecreasing (b :: t)

-- ── PDF download (app.js lines 313-341) ─────────────────────────────────────

/-- Outcome of the fetch to /generate-pdf: rejected with a message, or a
response with an ok flag. -/
inductive PdfResp
  | netError (msg : String)
  | httpResp (ok : Bool)
deriving DecidableEq

/-- Observable outcome of one download-button handler run. -/
structure DlResult where
  requestSent : Bool
  payloadSent : Option TranscribeBody
  busyText : String
  finalText : String
  finalDisabled : Bool
  notice : Option String
  downloadTriggered : Bool
deriving DecidableEq

/-- Busy label set at the top of the download handler. -/
def pdfBusyLabel : String := "⏳ Generating PDF..."

/-- Idle label restored in the finally block. -/
def pdfIdleLabel : String := "⬇️ Download PDF"

/-- Head of the toast message shown when the download fails. -/
def pdfErrH : String := "Failed to generate PDF: "

/-- Message of the error thrown on a non-ok /generate-pdf response. -/
def pdfGenFailedMsg : String := "PDF generation failed"

/-- The download click handler.  It always sets the busy label, disables
the button, and posts the current notesData.  A non-ok response throws a
fixed message; any thrown error is toasted with the fixed head text; the
finally block restores the idle label and re-enables the button on every
path.  There is no check that notesData ever received a result. -/
def runDownload (notes : Option TranscribeBody) (r : PdfResp) : DlResult :=
  { requestSent := true,
    payloadSent := notes,
    busyText := pdfBusyLabel,
    finalText := pdfIdleLabel,
    finalDisabled := false,
    notice :=
      match r with
      | PdfResp.netError m => some (pdfErrH ++ m)
      | PdfResp.httpResp ok => if ok then none else some (pdfErrH ++ pdfGenFailedMsg),
    downloadTriggered :=
      match r with
      | PdfResp.httpResp true => true
      | _ => false }

-- ── Concrete payloads used in the theorems below ────────────────────────────

/-- Payload whose first quiz item lacks its question field. -/
def qMissingBody : TranscribeBody :=
  { success := true, error := none, transcript := some "t", summary := some "s",
    bullets := none, quiz := some [{ question := none, answer := some "A" }],
    flashcards := none }

/-- Payload with every optional field missing. -/
def emptyBody : TranscribeBody :=
  { success := true, error := none, transcript := none, summary := none,
    bullets := none, quiz := none, flashcards := none }

/-- Payload with plain transcript and summary text containing raw markup. -/
def vbBody : TranscribeBody :=
  { success := true, error := none, transcript := some "raw <tag> stays",
    summary := some "also & stays", bullets := none, quiz := none,
    flashcards := none }

/-- Structurally successful payload used to drive the full pipeline. -/
def okBody : TranscribeBody :=
  { success := true, error := none, transcript := some "t", summary := some "s",
    bullets := some [], quiz := some [], flashcards := some [] }

/-- Payload of the cold-start scenario: HTTP 200 with a false success flag. -/
def coldStartBody : TranscribeBody :=
  { success := false, error := some "model cold start", transcript := none,
    summary := none, bullets := none, quiz := none, flashcards := none }

/-- Generate click with a selection and an HTTP 200 cold-start response. -/
def coldStartInput : GenInput :=
  { selectionPresent := true,
    resp := { ok := true, status := 200, jsonBody := some coldStartBody } }

/-- Generate click with a selection and a fully successful response. -/
def okInput : GenInput :=
  { selectionPresent := true,
    resp := { ok := true, status := 200, jsonBody := some okBody } }

/-- Generate click with a selection and a server-error response. -/
def errInput : GenInput :=
  { selectionPresent := true,
    resp := { ok := false, status := 500, jsonBody := none } }

-- ── Lemmas on escapeHtml ────────────────────────────────────────────────────

/-- replaceAllC distributes over list concatenation. -/
theorem replaceAllC_append (a b : List Char) (c : Char) (r : List Char) :
    replaceAllC (a ++ b) c r = replaceAllC a c r ++ replaceAllC b c r := by
  induction a with
  | nil => rfl
  | cons x xs ih => simp [replaceAllC, ih, List.append_assoc]

/-- escapeCore works one character at a time. -/
theorem escapeCore_cons (x : Char) (xs : List Char) :
    escapeCore (x :: xs) = escChar x ++ escapeCore xs := by
  by_cases h1 : x = '&'
  · subst h1; rfl
  by_cases h2 : x = '<'
  · subst h2; rfl
  by_cases h3 : x = '>'
  · subst h3; rfl
  by_cases h4 : x = quoteChar
  · subst h4; rfl
  by_cases h5 : x = aposChar
  · subst h5; rfl
  simp [escapeCore, replaceAllC, replaceAllC_append, escChar, h1, h2, h3, h4, h5]

/-- Prepending the escape of any single character preserves well-escapedness. -/
theorem wellEscaped_escChar_append (x : Char) (r : List Char)
    (h : wellEscaped r = true) : wellEscaped (escChar x ++ r) = true := by
  by_cases h1 : x = '&'
  · subst h1
    have : escChar '&' ++ r = '&' :: 'a' :: 'm' :: 'p' :: ';' :: r := rfl
    rw [this]
    simp [wellEscaped, isSpecialOut, entityHead, List.isPrefixOf, h]
    decide
  by_cases h2 : x = '<'
  · subst h2
    have : escChar '<' ++ r = '&' :: 'l' :: 't' :: ';' :: r := rfl
    rw [this]
    simp [wellEscaped, isSpecialOut, entityHead, List.isPrefixOf, h]
    decide
  by_cases h3 : x = '>'
  · subst h3
    have : escChar '>' ++ r = '&' :: 'g' :: 't' :: ';' :: r := rfl
    rw [this]
    simp [wellEscaped, isSpecialOut, entityHead, List.isPrefixOf, h]
    decide
  by_cases h4 : x = quoteChar
  · subst h4
    have : escChar quoteChar ++ r = '&' :: 'q' :: 'u' :: 'o' :: 't' :: ';' :: r := rfl
    rw [this]
    simp [wellEscaped, isSpecialOut, entityHead, List.isPrefixOf, h]
    decide
  by_cases h5 : x = aposChar
  · subst h5
    have : escChar aposChar ++ r = '&' :: '#' :: '0' :: '3' :: '9' :: ';' :: r := rfl
    rw [this]
    simp [wellEscaped, isSpecialOut, entityHead, List.isPrefixOf, h]
    decide
  have hx : escChar x ++ r = x :: r := by
    simp [escChar, h1, h2, h3, h4, h5]
  have hsp : isSpecialOut x = false := by
    simp [isSpecialOut, h2, h3, h4, h5]
  have hamp : (x == '&') = false := by
    simp [h1]
  rw [hx]
  simp [wellEscaped, hsp, hamp, h]

/-- Every output of the replace chain of escapeHtml is well escaped. -/
theorem escapeCore_wellEscaped (l : List Char) :
    wellEscaped (escapeCore l) = true := by
  induction l with
  | nil => rfl
  | cons x xs ih =>
    rw [escapeCore_cons]
    exact wellEscaped_escChar_append x _ ih

-- ── Reductions of the generate handler ──────────────────────────────────────

/-- On an ok response whose payload has a true success flag, the handler
walks all four stages, stores the payload and renders it. -/
theorem runGenerate_success_eq (st : Nat) (b : TranscribeBody) (hb : b.success = true) :
    runGenerate { selectionPresent := true,
                  resp := { ok := true, status := st, jsonBody := some b } } =
      { stepTrace := [Stage.transcribe, Stage.summarize, Stage.quiz, Stage.flash],
        overlayVisible := false, generateDisabled := false, notice := none,
        stored := some b, succeeded := true, rendered := some (renderViews b) } := by
  simp [runGenerate, hb]

/-- On an ok response whose payload has a false success flag, the handler
stops after the summarize step and toasts the payload error. -/
theorem runGenerate_backend_fail_eq (st : Nat) (b : TranscribeBody) (hb : b.success = false) :
    runGenerate { selectionPresent := true,
                  resp := { ok := true, status := st, jsonBody := some b } } =
      mkFail [Stage.transcribe, Stage.summarize] (jsOr b.error unknownErrMsg) := by
  simp [runGenerate, hb]

-- ── Claim theorems ──────────────────────────────────────────────────────────

/-- C4: every output of escapeHtml, as applied to quiz and flashcard text,
contains no raw angle bracket or quote and every ampersand in it begins an
entity; and the transcript and summary fields present in the payload are
rendered verbatim, with no entity substitution. -/
theorem escapeHtml_output_safe (o : Option String) (b : TranscribeBody) (s1 s2 : String)
    (h1 : b.transcript = some s1) (h1n : s1 ≠ "")
    (h2 : b.summary = some s2) (h2n : s2 ≠ "") :
    wellEscaped (escapeHtmlJS o).data = true ∧
    (renderViews b).transcript = s1 ∧
    (renderViews b).summary = s2 := by
  refine ⟨?_, ?_, ?_⟩
  · cases o with
    | none => rfl
    | some s =>
      by_cases hs : s = ""
      · subst hs; rfl
      · simpa [escapeHtmlJS, hs] using escapeCore_wellEscaped s.data
  · simp [renderViews, jsOr, h1, h1n]
  · simp [renderViews, jsOr, h2, h2n]

/-- Witness for C4 at a script-injection input and a payload with raw
markup in its plain-text fields. -/
theorem escapeHtml_output_safe_witness :
    wellEscaped (escapeHtmlJS (some "<script>he said \x22hi\x22 & left \x27now\x27</script>")).data = true ∧
    (renderViews vbBody).transcript = "raw <tag> stays" ∧
    (renderViews vbBody).summary = "also & stays" :=
  escapeHtml_output_safe _ vbBody _ _ rfl (by decide) rfl (by decide)

/-- C3 counterexample: a payload whose quiz item has no question field
renders that question as the empty string, an empty render with no
placeholder text, so the claim that every missing optional field degrades
to explicit placeholder text fails. -/
theorem render_missing_question_empty :
    (renderViews qMissingBody).quiz = [("", "A")] := by decide

/-- C3 amended: missing or empty transcript and summary degrade to the two
explicit placeholders; a missing bullets array renders as the empty list,
and quiz and flashcard texts pass through escapeHtml, which renders a
missing field as the empty string; rendering is total and never crashes. -/
theorem render_placeholder_behavior (b : TranscribeBody)
    (ht : b.transcript = none ∨ b.transcript = some "")
    (hs : b.summary = none ∨ b.summary = some "")
    (hbl : b.bullets = none) :
    (renderViews b).transcript = "Transcript not available." ∧
    (renderViews b).summary = "Summary not available." ∧
    (renderViews b).bullets = [] ∧
    escapeHtmlJS none = "" ∧
    (renderViews b).quiz = (jsArr b.quiz).map
      (fun it => (escapeHtmlJS it.question, escapeHtmlJS it.answer)) := by
  rcases ht with h | h <;> rcases hs with h2 | h2 <;>
    simp [renderViews, jsOr, jsArr, escapeHtmlJS, h, h2, hbl]

/-- Witness for the amended C3 at the all-fields-missing payload. -/
theorem render_placeholder_witness :
    (renderViews emptyBody).transcript = "Transcript not available." ∧
    (renderViews emptyBody).summary = "Summary not available." ∧
    (renderViews emptyBody).bullets = [] ∧
    escapeHtmlJS none = "" ∧
    (renderViews emptyBody).quiz = (jsArr emptyBody.quiz).map
      (fun it => (escapeHtmlJS it.question, escapeHtmlJS it.answer)) :=
  render_placeholder_behavior emptyBody (Or.inl rfl) (Or.inl rfl) rfl

/-- C5: a file is accepted exactly when its declared media type belongs to
the fixed allow list or its name, case-insensitively, ends with one of the
allowed extensions; rejection only toasts the unsupported-format message
and leaves every other part of the state unchanged, while acceptance
stores the file and shows its preview without toasting. -/
theorem selectUpload_validation (s : AppState) (f : JSFile) :
    (acceptsFile f = true ↔
      (f.type ∈ allowedTypes ∨
        ∃ e ∈ allowedExts, e.data.isSuffixOf (f.name.data.map Char.toLower) = true)) ∧
    (acceptsFile f = false →
      step (AppAction.selectFile f) s = { s with lastError := some unsupportedMsg }) ∧
    (acceptsFile f = true →
      (step (AppAction.selectFile f) s).uploadedFile = some f ∧
      (step (AppAction.selectFile f) s).lastError = s.lastError ∧
      (step (AppAction.selectFile f) s).filePreviewHidden = false) := by
  refine ⟨?_, ?_, ?_⟩
  · simp [acceptsFile, extFallback, List.any_eq_true]
  · intro h; simp [step, h]
  · intro h; simp [step, h, updateGenerateBtn]

/-- Witness for C5: an upper-case extension with an empty declared type is
accepted through the fallback, and a text file is rejected with only the
toast changed. -/
theorem selectUpload_validation_witness :
    (step (AppAction.selectFile { name := "Lecture.MP3", type := "", size := 2400000 }) initState).uploadedFile =
      some { name := "Lecture.MP3", type := "", size := 2400000 } ∧
    step (AppAction.selectFile { name := "notes.txt", type := "text/plain", size := 5 }) initState =
      { initState with lastError := some unsupportedMsg } :=
  ⟨((selectUpload_validation initState _).2.2 (by decide)).1,
   (selectUpload_validation initState _).2.1 (by decide)⟩

/-- C6: within one generate run the setStep trace never decreases and on
success ends at flash after visiting all four stages in order; the step
classes start all pending and after every setStep form a block of done,
at most one active, then pending; and on failure the overlay is hidden so
no stage remains visually active. -/
theorem generate_progress_invariants (inp : GenInput) :
    nonDecreasing (runGenerate inp).stepTrace = true ∧
    (classTrace (runGenerate inp)).head? = some allPendingClasses ∧
    (classTrace (runGenerate inp)).all dapShape = true ∧
    ((runGenerate inp).succeeded = true →
      (runGenerate inp).stepTrace = [Stage.transcribe, Stage.summarize, Stage.quiz, Stage.flash]) ∧
    ((runGenerate inp).succeeded = false →
      (runGenerate inp).overlayVisible = false ∧ anyVisuallyActive (runGenerate inp) = false) := by
  obtain ⟨sel, ok, status, body⟩ := inp
  cases sel with
  | false =>
    exact ⟨rfl, rfl, rfl, fun h => Bool.noConfusion h, fun _ => ⟨rfl, rfl⟩⟩
  | true =>
    cases ok with
    | false =>
      exact ⟨rfl, rfl, rfl, fun h => Bool.noConfusion h, fun _ => ⟨rfl, rfl⟩⟩
    | true =>
      cases body with
      | none =>
        exact ⟨rfl, rfl, rfl, fun h => Bool.noConfusion h, fun _ => ⟨rfl, rfl⟩⟩
      | some b =>
        cases hb : b.success with
        | false =>
          rw [runGenerate_backend_fail_eq status b hb]
          exact ⟨rfl, rfl, rfl, fun h => Bool.noConfusion h, fun _ => ⟨rfl, rfl⟩⟩
        | true =>
          rw [runGenerate_success_eq status b hb]
          exact ⟨rfl, rfl, rfl, fun _ => rfl, fun h => Bool.noConfusion h⟩

/-- Witness for C6: the full trace is reached on a successful run, and a
failing run ends with the overlay hidden. -/
theorem generate_progress_witness :
    (runGenerate okInput).stepTrace =
      [Stage.transcribe, Stage.summarize, Stage.quiz, Stage.flash] ∧
    (runGenerate errInput).overlayVisible = false :=
  ⟨(generate_progress_invariants okInput).2.2.2.1 (by decide),
   ((generate_progress_invariants errInput).2.2.2.2 (by decide)).1⟩

/-- C7: an HTTP-ok transcription response whose payload carries a false
success flag and the error text model cold start makes the run fail with
that exact message, with the overlay hidden and generate re-enabled. -/
theorem cold_start_backend_error :
    (runGenerate coldStartInput).notice = some "model cold start" ∧
    (runGenerate coldStartInput).succeeded = false ∧
    (runGenerate coldStartInput).overlayVisible = false ∧
    (runGenerate coldStartInput).generateDisabled = false := by
  decide

/-- C8: stopping before any start keeps the session at its initial idle
values, with no chunks, zero elapsed seconds and no blob, while the
unconditional UI cleanup of stopRecording still runs. -/
theorem stop_before_start_noop :
    (step AppAction.recordStop initState).audioChunks = [] ∧
    (step AppAction.recordStop initState).recordingSeconds = 0 ∧
    (step AppAction.recordStop initState).recordedBlob = none ∧
    (step AppAction.recordStop initState).recordBtnHidden = false ∧
    (step AppAction.recordStop initState).stopBtnHidden = true ∧
    (step AppAction.recordStop initState).micRecording = false ∧
    (step AppAction.recordStop initState).recordingTimerActive = false ∧
    (step AppAction.recordStop initState).recStatusText = recStatusSaved := by
  decide

/-- C9: every download run restores the idle label and re-enables the
trigger, and the two failure modes toast the fixed failure head with the
thrown message. -/
theorem export_restores_trigger (notes : Option TranscribeBody) (r : PdfResp) (m : String) :
    (runDownload notes r).finalText = pdfIdleLabel ∧
    (runDownload notes r).finalDisabled = false ∧
    (runDownload notes (PdfResp.netError m)).notice = some (pdfErrH ++ m) ∧
    (runDownload notes (PdfResp.httpResp false)).notice = some (pdfErrH ++ pdfGenFailedMsg) :=
  ⟨rfl, rfl, rfl, rfl⟩

/-- C1 counterexample: after recording three seconds and stopping, with no
generate in between, notesData is still the empty object, yet triggering
the export sends a request that succeeds on an ok response, surfaces no
error at all, and meanwhile rewrites the button to the busy label — so the
export neither fails with a no-result error nor leaves the text unchanged. -/
theorem export_without_generate_not_guarded :
    (step AppAction.recordStop (step (AppAction.tick 1) (step (AppAction.tick 1) (step (AppAction.tick 1)
      (step (AppAction.recordStart true) (step (AppAction.setMode Mode.record) initState)))))).notesData = none ∧
    (runDownload (step AppAction.recordStop (step (AppAction.tick 1) (step (AppAction.tick 1) (step (AppAction.tick 1)
      (step (AppAction.recordStart true) (step (AppAction.setMode Mode.record) initState)))))).notesData
      (PdfResp.httpResp true)).downloadTriggered = true ∧
    (runDownload none (PdfResp.httpResp true)).notice = none ∧
    (runDownload none (PdfResp.httpResp true)).busyText = pdfBusyLabel ∧
    pdfBusyLabel ≠ pdfIdleLabel := by
  decide

/-- C1 amended: with no result ever produced the export handler performs no
guard: it still sends the empty stored payload, temporarily shows the busy
label, and afterwards restores the idle label and enabled state; failures
surface only the generic PDF-failure toast. -/
theorem export_without_result_behavior (r : PdfResp) :
    (runDownload none r).requestSent = true ∧
    (runDownload none r).payloadSent = none ∧
    (runDownload none r).busyText = pdfBusyLabel ∧
    (runDownload none r).finalText = pdfIdleLabel ∧
    (runDownload none r).finalDisabled = false :=
  ⟨rfl, rfl, rfl, rfl, rfl⟩

/-- C2 at its failing input: the state reached by switching to the record
tab, recording, and stopping is reachable; starting a second recording
from it leaves the generate button enabled even though the readiness gate
is false, because startRecording clears recordedBlob without calling
updateGenerateBtn. -/
theorem record_restart_stale_generate :
    Reachable (step AppAction.recordStop (step (AppAction.recordStart true)
      (step (AppAction.setMode Mode.record) initState))) ∧
    (step (AppAction.recordStart true) (step AppAction.recordStop (step (AppAction.recordStart true)
      (step (AppAction.setMode Mode.record) initState)))).generateBtnDisabled = false ∧
    gate (step (AppAction.recordStart true) (step AppAction.recordStop (step (AppAction.recordStart true)
      (step (AppAction.setMode Mode.record) initState)))) = false :=
  ⟨Reachable.tail (Reachable.tail (Reachable.tail Reachable.base (AppAction.setMode Mode.record))
      (AppAction.recordStart true)) AppAction.recordStop,
   by decide, by decide⟩

/-- C10: when microphone acquisition is refused, startRecording changes
nothing but the toast: chunks, blob, elapsed seconds, timer text, button
visibility, recording flags and the generate gate all keep their prior
values, because every reset sits after the acquisition succeeds. -/
theorem mic_denied_leaves_state (s : AppState) :
    (step (AppAction.recordStart false) s).audioChunks = s.audioChunks ∧
    (step (AppAction.recordStart false) s).recordedBlob = s.recordedBlob ∧
    (step (AppAction.recordStart false) s).recordingSeconds = s.recordingSeconds ∧
    (step (AppAction.recordStart false) s).timerText = s.timerText ∧
    (step (AppAction.recordStart false) s).recordBtnHidden = s.recordBtnHidden ∧
    (step (AppAction.recordStart false) s).stopBtnHidden = s.stopBtnHidden ∧
    (step (AppAction.recordStart false) s).micRecording = s.micRecording ∧
    (step (AppAction.recordStart false) s).recordingTimerActive = s.recordingTimerActive ∧
    (step (AppAction.recordStart false) s).generateBtnDisabled = s.generateBtnDisabled ∧
    (step (AppAction.recordStart false) s).mediaRecorderState = s.mediaRecorderState ∧
    (step (AppAction.recordStart false) s).lastError = some micDeniedMsg := by
  simp [step]
